import Mathlib

/-!
Verification of the video-virality-scoring pipeline.

This file shallowly embeds the parts of the repository that the claims
C1..C10 are about:

* `src/app/pipeline/scoring.py`   — `VideoReport.compute_virality_score`,
  `VideoReport.load_json`, `VideoReport.extract_matrices`, the `query_llm`
  fallback and `VideoReport.generate`;
* `src/app/pipeline/scene_detect.py` — the record format written by
  `SceneDetector.detect` / `detect_and_save`;
* `src/app/pipeline/frame_extract.py` — the scene-filtering loop of
  `FrameExtractor.extract`;
* `src/app/pipeline/audio_analysis.py` and `frame_analysis.py` — the
  exception-classification logic of the AI-collaborator stages;
* `src/ui/app.py` — the stage sequencer `_run_current_stage` /
  `run_next_stage_if_needed` and the two entry paths;
* `src/config.py` — `make_name` / `make_path`.

Python `float` arithmetic in the scoring function is modelled by exact
rational arithmetic (every weight is a multiple of 1/100, and all inputs
of interest are integers, so every intermediate value is a multiple of
1/100); Python `int(x)` is truncation toward zero, modelled by `pyInt`.
External collaborators (yt-dlp, PySceneDetect, ffmpeg, whisper, OpenAI,
Gemini) are modelled as explicit inputs: their outcome (a value, or the
message of the exception they raised) is a parameter of the embedded
stage function, exactly at the boundary where the Python code wraps the
call in `try`/`except`.

The file is organised as definitions first, then the theorems settling
the claims.
-/

/-! ## Definitions -/

/-! ### Scoring aggregator (`src/app/pipeline/scoring.py`) -/

/-- The five sub-scores of a report (`result["scores"]` in
`compute_virality_score`; JSON integers per the schema in the prompt). -/
structure Scores where
  hook : ℤ
  visuals : ℤ
  audio : ℤ
  engagement : ℤ
  visual_diversity : ℤ
deriving DecidableEq

/-- The derived matrices (`result["matrices"]`), string-valued fields
`tone`, `emotion`, `pace`, `facial_sync` as produced by
`extract_matrices` or by the LLM response. -/
structure Matrices where
  tone : String
  emotion : String
  pace : String
  facial_sync : String
deriving DecidableEq

/-- Python `int(x)`: truncation toward zero. -/
def pyInt (q : ℚ) : ℤ := if 0 ≤ q then ⌊q⌋ else ⌈q⌉

/-- `base_score = sum(sub_scores[key] * weights[key] for key in weights)`
with `weights = {hook: 0.18, visuals: 0.20, audio: 0.25, engagement: 0.27,
visual_diversity: 0.10}`, in the iteration order of the dict. -/
def base_score (s : Scores) : ℚ :=
  (s.hook : ℚ) * 0.18 + (s.visuals : ℚ) * 0.20 + (s.audio : ℚ) * 0.25
    + (s.engagement : ℚ) * 0.27 + (s.visual_diversity : ℚ) * 0.10

/-- The running `bonus` variable of `compute_virality_score`: three
additions followed by three subtractions, in source order. -/
def bonus_total (s : Scores) (m : Matrices) : ℤ :=
  (0
    + (if m.emotion = "joy" ∨ m.emotion = "inspiration" then 6 else 0)
    + (if m.tone = "funny" ∨ m.tone = "relatable" then 6 else 0)
    + (if m.facial_sync = "ok" ∨ m.facial_sync = "good" then 4 else 0))
    - (if s.hook ≤ 30 then 6 else 0)
    - (if s.audio < 40 then 5 else 0)
    - (if m.facial_sync = "none" then 5 else 0)

/-- `VideoReport.compute_virality_score`:
`final_score = max(0, min(100, int(base_score + bonus)))`. -/
def compute_virality_score (s : Scores) (m : Matrices) : ℤ :=
  max 0 (min 100 (pyInt (base_score s + (bonus_total s m : ℚ))))

/-- The bonus as the spec claim states it: +6 for emotion joy/inspiration,
+6 for tone funny/relatable, +4 for facial_sync ok/good. -/
def spec_bonus (m : Matrices) : ℤ :=
  (if m.emotion = "joy" ∨ m.emotion = "inspiration" then 6 else 0)
    + (if m.tone = "funny" ∨ m.tone = "relatable" then 6 else 0)
    + (if m.facial_sync = "ok" ∨ m.facial_sync = "good" then 4 else 0)

/-- The penalty as the spec claim states it: 6 if hook ≤ 30, 5 if
audio < 40, 5 if facial_sync is "none". -/
def spec_penalty (s : Scores) (m : Matrices) : ℤ :=
  (if s.hook ≤ 30 then 6 else 0)
    + (if s.audio < 40 then 5 else 0)
    + (if m.facial_sync = "none" then 5 else 0)

/-- The total exactly as claim C1 words it:
`clamp(round(Σ weight_i · subscore_i) + bonus − penalty, 0, 100)`,
with `round` applied to the weighted sum before the integer
bonus/penalty adjustments. -/
def claimed_total_C1 (s : Scores) (m : Matrices) : ℤ :=
  max 0 (min 100 (round (base_score s) + spec_bonus m - spec_penalty s m))

/-- The sub-scores that refute C1: weighted sum `50.9`. -/
def cexScores : Scores := ⟨50, 50, 50, 50, 59⟩

/-- Matrices that trigger no bonus and no penalty. -/
def cexMatrices : Matrices := ⟨"unknown", "unknown", "unknown", "unknown"⟩

/-- The example input of claim C2: sub-scores
{hook 80, visuals 70, audio 50, engagement 60, visual_diversity 40}. -/
def exScores : Scores := ⟨80, 70, 50, 60, 40⟩

/-- The example matrices of claim C2: emotion joy, tone funny,
facial_sync good (pace is not constrained by the claim and is not read
by the scoring function). -/
def exMatrices : Matrices := ⟨"funny", "joy", "unknown", "good"⟩

/-! ### Scene detection (`src/app/pipeline/scene_detect.py`) -/

/-- The record that the loop body of `SceneDetector.detect` appends for
each detected scene and that `detect_and_save` serialises unchanged into
the scene artifact: a JSON object with exactly the keys `"start"` and
`"end"` (the two values are the scene boundaries in seconds, as returned
by the PySceneDetect collaborator and rounded to two decimals; the
rounding is immaterial here and the already-rounded values are taken as
inputs). -/
def formatScene (startSec endSec : ℚ) : List (String × ℚ) :=
  [("start", startSec), ("end", endSec)]

/-- Lookup of a key in a JSON object, as `sc['start_time']` does in
`FrameExtractor.extract`: `none` models the `KeyError` Python raises
when the key is absent. -/
def sceneLookup (r : List (String × ℚ)) (k : String) : Option ℚ :=
  (r.find? (fun p => p.1 == k)).map Prod.snd

/-! ### Frame extraction (`src/app/pipeline/frame_extract.py`) -/

/-- A scene as `FrameExtractor.extract` reads it from the scene
artifact: `float(sc['start_time'])` and `float(sc['end_time'])`. -/
structure Scene where
  start_time : ℚ
  end_time : ℚ
deriving DecidableEq

/-- One entry of the list returned by `FrameExtractor.extract`: the
scene index and the midpoint timestamp at which the three frames and
the brightness are sampled (the frame paths are a pure function of the
video stem, the index and a tag, and the brightness comes from the
ffprobe collaborator; neither affects which scenes produce entries). -/
structure FrameResult where
  scene_index : ℕ
  timestamp : ℚ
deriving DecidableEq

/-- The `for i, sc in enumerate(scenes)` loop of
`FrameExtractor.extract`: a scene whose duration
`end_time − start_time` is below `min_scene_len` is skipped
(`continue`); otherwise an entry with the running index and the
midpoint `(start + end) / 2` is appended. -/
def extractLoop (minLen : ℚ) : ℕ → List Scene → List FrameResult
  | _, [] => []
  | i, sc :: rest =>
      if sc.end_time - sc.start_time < minLen then extractLoop minLen (i + 1) rest
      else ⟨i, (sc.start_time + sc.end_time) / 2⟩ :: extractLoop minLen (i + 1) rest

/-- `FrameExtractor.extract` on an already-loaded scene list, with the
configured minimum scene length (constructor default 0.2 s). -/
def extract (minLen : ℚ) (scenes : List Scene) : List FrameResult :=
  extractLoop minLen 0 scenes

/-- `FrameExtractor.extract` as a stage: it begins with
`with open(self.scene_json_path) ...`, so a missing scene artifact
raises `FileNotFoundError` before any work is done; `none` models the
missing artifact. -/
def frameExtractStage (minLen : ℚ) (sceneArtifact : Option (List Scene)) :
    Except String (List FrameResult) :=
  match sceneArtifact with
  | none => Except.error "FileNotFoundError: scene artifact missing"
  | some scenes => Except.ok (extract minLen scenes)

/-! ### String utilities shared by the exception classifiers

Python's `k in s` substring test and `s.lower()` are modelled over the
character list of a `String` (`.lower()` per character matches Python on
the ASCII keyword set used here). -/

/-- `isPre n h` holds when `n` is an initial segment of `h`. -/
def isPre : List Char → List Char → Bool
  | [], _ => true
  | _ :: _, [] => false
  | a :: as, b :: bs => a == b && isPre as bs

/-- Python's substring test `needle in hay` on character lists. -/
def containsSub : List Char → List Char → Bool
  | n, [] => n.isEmpty
  | n, c :: t => isPre n (c :: t) || containsSub n t

/-- Python's `needle in hay` on strings. -/
def strContains (needle hay : String) : Bool :=
  containsSub needle.data hay.data

/-- Python's `s.lower()` (ASCII-faithful). -/
def strLower (s : String) : String :=
  ⟨s.data.map Char.toLower⟩

/-! ### Audio analysis (`src/app/pipeline/audio_analysis.py`) -/

/-- The curated credential-keyword markers of
`AudioAnalyzer._gemini_audio_analysis` (and of
`HookAnalyzer._gemini_hook_alignment`). -/
def credKeywords : List String :=
  ["api_key", "invalid", "401", "403", "authentication", "unauthorized"]

/-- `any(keyword in error_msg.lower() for keyword in [...])`. -/
def isCredentialError (errMsg : String) : Bool :=
  credKeywords.any (fun k => strContains k (strLower errMsg))

/-- The record produced by the Gemini audio analysis (the fields of the
JSON schema in the prompt / of the default record). -/
structure AudioRecord where
  tone : String
  emotion : String
  pace : String
  delivery_score : ℤ
  is_hooking_start : Bool
  comment : String
  is_dark_artistic : Bool
  brightness : ℚ
deriving DecidableEq

/-- The documented default record returned by
`_gemini_audio_analysis` when a non-credential error occurs:
tone neutral, emotion neutral, pace medium, delivery_score 50. -/
def defaultAudioRecord (brightness : ℚ) : AudioRecord :=
  ⟨"neutral", "neutral", "medium", 50, false,
    "LLM analysis failed, using defaults", false, brightness⟩

/-- The `except Exception as e` clause of
`AudioAnalyzer._gemini_audio_analysis`: if the error message contains a
credential keyword (case-insensitively) a `ValueError` is re-raised
(modelled as `Except.error`), otherwise the default record is
returned. -/
def geminiAudioExceptClause (errMsg : String) (brightness : ℚ) :
    Except String AudioRecord :=
  if isCredentialError errMsg then
    Except.error ("Invalid Gemini API key: " ++ errMsg)
  else
    Except.ok (defaultAudioRecord brightness)

/-- `AudioAnalyzer._gemini_audio_analysis` over the outcome of its `try`
body (the Gemini call followed by `json.loads` of the cleaned text):
`Except.ok` is a successfully parsed record, `Except.error` carries the
message of the exception the body raised — either from the API call or
from `json.loads` on malformed text; both reach the same `except`
clause. -/
def geminiAudioAnalysis (tryBody : Except String AudioRecord) (brightness : ℚ) :
    Except String AudioRecord :=
  match tryBody with
  | Except.ok r => Except.ok r
  | Except.error e => geminiAudioExceptClause e brightness

/-- The audio artifact (`audio_analysis.json`) after
`AudioAnalyzer.analyze`: the file is written only after
`_gemini_audio_analysis` returns, so a raised error propagates out of
`analyze` and nothing is written (`none`). -/
def audioAnalyzeArtifact (g : Except String AudioRecord) : Option AudioRecord :=
  match g with
  | Except.ok r => some r
  | Except.error _ => none

/-! ### Frame analysis (`src/app/pipeline/frame_analysis.py`) -/

/-- The per-frame record parsed by `FrameAnalyzer.gpt_analyze`
(lighting, is_artistic_dark, composition, has_text, text,
hook_strength). -/
structure FrameRecord where
  lighting : ℤ
  is_artistic_dark : Bool
  composition : ℤ
  has_text : Bool
  text : String
  hook_strength : ℤ
deriving DecidableEq

/-- One entry of the `results` dict of `FrameAnalyzer.analyze`: either
the parsed record or, when `gpt_analyze` raised, the per-frame error
entry `{'error': str(e)}`. -/
inductive FrameEntry where
  | parsed (r : FrameRecord)
  | failed (msg : String)
deriving DecidableEq

/-- The `for frame in center_frames` loop of `FrameAnalyzer.analyze`:
every exception raised by `gpt_analyze` on one frame (API failure or
`extract_json` parse failure alike) is caught, recorded as a per-frame
error entry, and the loop continues with the remaining frames. Each
input pair is the frame name together with the outcome of `gpt_analyze`
on it. -/
def frameAnalyzeLoop : List (String × Except String FrameRecord) → List (String × FrameEntry)
  | [] => []
  | (name, out) :: rest =>
      (name, match out with
             | Except.ok r => FrameEntry.parsed r
             | Except.error e => FrameEntry.failed e) :: frameAnalyzeLoop rest

/-! ### Hook analysis (`HookAnalyzer` in `src/app/pipeline/frame_analysis.py`) -/

/-- The record parsed by `HookAnalyzer._gemini_hook_alignment`
(hook_alignment_score, facial_sync, comment). -/
structure HookRecord where
  hook_alignment_score : ℤ
  facial_sync : String
  comment : String
deriving DecidableEq

/-- `HookAnalyzer.analyze`: `_load_audio_summary` opens the audio
artifact with a bare `open`, so a missing audio artifact raises
`FileNotFoundError` before the Gemini collaborator is consulted;
otherwise the stage result is the outcome of
`_gemini_hook_alignment` (given here as a parameter at the
collaborator boundary). -/
def hookAnalyzeStage (audioArtifact : Option (List (String × String)))
    (gemini : Except String HookRecord) : Except String HookRecord :=
  match audioArtifact with
  | none => Except.error "FileNotFoundError: audio artifact missing"
  | some _ => gemini

/-! ### Report generation (`VideoReport` in `src/app/pipeline/scoring.py`)

The three upstream artifacts are modelled as JSON objects restricted to
their string-valued fields (the only ones `extract_matrices` reads);
`none` is a missing file. -/

/-- `VideoReport.load_json`: `try: ... json.load(f) except Exception:
return {}` — a missing (or unreadable) artifact yields the empty
document instead of an error. -/
def load_json (d : Option (List (String × String))) : List (String × String) :=
  d.getD []

/-- Python `d.get(key, default)` on a JSON object. -/
def dictGet (d : List (String × String)) (k dflt : String) : String :=
  ((d.find? (fun p => p.1 == k)).map Prod.snd).getD dflt

/-- `VideoReport.extract_matrices`: tone/emotion/pace from the loaded
audio analysis, facial_sync from the loaded hook analysis, each
defaulting to "unknown". -/
def extract_matrices (audio hook : List (String × String)) : Matrices :=
  ⟨dictGet audio "tone" "unknown", dictGet audio "emotion" "unknown",
    dictGet audio "pace" "unknown", dictGet hook "facial_sync" "unknown"⟩

/-- The part of the parsed LLM reply that the scoring reads:
`result["scores"]` and `result["matrices"]`. -/
structure LLMResult where
  scores : Scores
  matrices : Matrices
deriving DecidableEq

/-- `VideoReport.query_llm`: the OpenAI call and JSON parse are wrapped
in a catch-all `except`, which returns the fallback result — all five
scores 0 and `extract_matrices()` of the loaded artifacts — so the
report stage never raises here. -/
def query_llm (outcome : Except String LLMResult)
    (audio hook : List (String × String)) : LLMResult :=
  match outcome with
  | Except.ok r => r
  | Except.error _ => ⟨⟨0, 0, 0, 0, 0⟩, extract_matrices audio hook⟩

/-- The final report document (the fields relevant to the claims). -/
structure FinalReport where
  total_score : ℤ
  scores : Scores
  matrices : Matrices
deriving DecidableEq

/-- `VideoReport.generate` composed with the loading in
`VideoReport.__init__`: load the three artifacts (missing ⇒ `{}`), query
the LLM (failure ⇒ fallback), compute the total, and return the final
report. It is a total function: no missing artifact makes it fail. -/
def videoReportGenerate (audioDisk frameDisk hookDisk : Option (List (String × String)))
    (llmOutcome : Except String LLMResult) : FinalReport :=
  let audio := load_json audioDisk
  let _frame := load_json frameDisk
  let hook := load_json hookDisk
  let result := query_llm llmOutcome audio hook
  ⟨compute_virality_score result.scores result.matrices, result.scores, result.matrices⟩

/-! ### Stage sequencer (`src/ui/app.py`)

`_run_current_stage` / `run_next_stage_if_needed` as a step function on
the session state, driven with fuel (each Streamlit rerun executes one
step; `done`, `error` and the idle state are absorbing). Collaborator
invocations are recorded in an `invoked` log; each analysis stage is
taken on its happy path here — its failure handling is modelled at
finer granularity by the stage functions above. -/

/-- The pipeline stages of `STAGES` in `src/ui/app.py`, plus the
absorbing `done` and `error` states. -/
inductive Stage where
  | download
  | sceneDetect
  | frameExtract
  | frameAnalysis
  | audioAnalysis
  | hookAnalysis
  | report
  | done
  | error
deriving DecidableEq

/-- The on-disk and configuration environment of one run: whether the
final report artifact for this video identity already exists, and
whether the two API keys are configured. -/
structure World where
  reportExists : Bool
  openaiKey : Bool
  geminiKey : Bool

/-- The Streamlit session state fields the sequencer drives:
`st.session_state.stage` (`none` models Python `None`), `progress`,
`cancel`, plus a log of the collaborators invoked so far. -/
structure SessionState where
  stage : Option Stage
  progress : ℕ
  cancel : Bool
  invoked : List String
deriving DecidableEq

/-- The six stage collaborators named by claim C6. -/
def pipelineCollaborators : List String :=
  ["scene_detection", "frame_extraction", "frame_analysis",
    "audio_analysis", "hook_analysis", "report_generation"]

/-- One call of `_run_current_stage`: return immediately when the stage
is unset, `done` or `error`; honour a pending cancel; otherwise run the
current stage and advance. In the download stage, after `download_video`
returns, the existence of the final report artifact short-circuits the
whole run to `done` with progress 100. The four analysis stages first
require their API key (missing key ⇒ `error`). -/
def runCurrentStage (w : World) (s : SessionState) : SessionState :=
  match s.stage with
  | none => s
  | some st =>
    if st = Stage.done ∨ st = Stage.error then s
    else if s.cancel then { s with stage := none, progress := 0 }
    else
      match st with
      | Stage.download =>
          let s' := { s with invoked := s.invoked ++ ["download_video"] }
          if w.reportExists then { s' with progress := 100, stage := some Stage.done }
          else { s' with progress := 10, stage := some Stage.sceneDetect }
      | Stage.sceneDetect =>
          { s with invoked := s.invoked ++ ["scene_detection"], progress := 25,
                   stage := some Stage.frameExtract }
      | Stage.frameExtract =>
          { s with invoked := s.invoked ++ ["frame_extraction"], progress := 40,
                   stage := some Stage.frameAnalysis }
      | Stage.frameAnalysis =>
          if w.openaiKey then
            { s with invoked := s.invoked ++ ["frame_analysis"], progress := 55,
                     stage := some Stage.audioAnalysis }
          else { s with stage := some Stage.error }
      | Stage.audioAnalysis =>
          if w.geminiKey then
            { s with invoked := s.invoked ++ ["audio_analysis"], progress := 70,
                     stage := some Stage.hookAnalysis }
          else { s with stage := some Stage.error }
      | Stage.hookAnalysis =>
          if w.geminiKey then
            { s with invoked := s.invoked ++ ["hook_analysis"], progress := 85,
                     stage := some Stage.report }
          else { s with stage := some Stage.error }
      | Stage.report =>
          if w.openaiKey then
            { s with invoked := s.invoked ++ ["report_generation"], progress := 100,
                     stage := some Stage.done }
          else { s with stage := some Stage.error }
      | Stage.done => s
      | Stage.error => s

/-- `run_next_stage_if_needed` driven for up to `fuel` reruns: it does
nothing once the stage is unset, `done` or `error`. -/
def runPipeline (w : World) : ℕ → SessionState → SessionState
  | 0, s => s
  | fuel + 1, s =>
      match s.stage with
      | none => s
      | some st =>
          if st = Stage.done ∨ st = Stage.error then s
          else runPipeline w fuel (runCurrentStage w s)

/-- The session state set by the URL entry path when "Run Analysis" is
clicked: stage "download video", progress 0, cancel cleared. -/
def urlEntryState : SessionState :=
  ⟨some Stage.download, 0, false, []⟩

/-- The session state set by the file-upload entry path: the handler
itself checks the final report artifact before starting — if it exists
the stage is set directly to `done` with progress 100, otherwise to
"scene detection" with progress 0. -/
def fileEntryState (w : World) : SessionState :=
  if w.reportExists then ⟨some Stage.done, 100, false, []⟩
  else ⟨some Stage.sceneDetect, 0, false, []⟩

/-- The error classifier of the `audio analysis` branch of
`_run_current_stage`: an exception whose message matches the key-error
markers becomes the Gemini-tagged error state (`some` message); any
other exception is re-raised (`none`) — and is then caught by the
outer handler, which also moves to the error state. -/
def uiAudioStageOnError (errMsg : String) : Option String :=
  if strContains "invalid" (strLower errMsg) || strContains "401" errMsg
      || strContains "403" errMsg || strContains "api_key" (strLower errMsg)
      || strContains "authentication" (strLower errMsg) then
    some ("GEMINI API KEY FAILED: Invalid Gemini API Key provided. Error: " ++ errMsg)
  else none

/-! ### Artifact paths (`src/config.py`) -/

/-- Split a character list at a separator (all chunks, empties kept). -/
def splitOnChar (sep : Char) : List Char → List (List Char)
  | [] => [[]]
  | c :: t =>
      let r := splitOnChar sep t
      if c == sep then [] :: r
      else
        match r with
        | [] => [[c]]
        | h :: t2 => (c :: h) :: t2

/-- `pathlib.Path(p).name`: the last nonempty `/`-separated component
(drive/`..` handling of pathlib is not exercised by the repository's
paths). -/
def pyNameL (cs : List Char) : List Char :=
  (((splitOnChar '/' cs).filter (fun p => !p.isEmpty)).getLast?).getD []

/-- `pathlib.PurePath.stem` of a file name: drop the last `.`-separated
extension when the rightmost dot is neither the first nor the last
character, following pathlib's definition. -/
def pyStemL (cs : List Char) : List Char :=
  match cs.reverse.findIdx? (fun c => c == '.') with
  | none => cs
  | some j =>
      let i := cs.length - 1 - j
      if 0 < i ∧ i < cs.length - 1 then cs.take i else cs

/-- `Path(video_path).stem` as used by `make_name`. -/
def pyStem (p : String) : String :=
  ⟨pyStemL (pyNameL p.data)⟩

/-- `config.make_name(video_path, suffix, ext)`:
the string `f'{stem}_{suffix}.{ext}'`. -/
def make_name (video_path sfx ext : String) : String :=
  pyStem video_path ++ "_" ++ sfx ++ "." ++ ext

/-- `config.make_path(subdir, video_path, suffix, ext)`:
`DATA_DIR / subdir / make_name(...)`, with `DATA_DIR` rendered as the
fixed root `data/`. -/
def make_path (subdir video_path sfx ext : String) : String :=
  "data/" ++ subdir ++ "/" ++ make_name video_path sfx ext

/-! ## Theorems -/

/-- C1 (counterexample). On sub-scores (hook 50, visuals 50, audio 50,
engagement 50, visual_diversity 59) with no bonus or penalty, the
weighted sum is 50.9: the code's `int()` truncation yields total 50,
while the claimed `clamp(round(Σ wᵢ·sᵢ) + bonus − penalty, 0, 100)`
yields 51, so the claim's formula disagrees with
`compute_virality_score`. -/
theorem compute_virality_score_round_cex :
    compute_virality_score cexScores cexMatrices = 50 ∧
      claimed_total_C1 cexScores cexMatrices = 51 ∧
      compute_virality_score cexScores cexMatrices ≠
        claimed_total_C1 cexScores cexMatrices := by
  have hb : bonus_total cexScores cexMatrices = 0 := by decide
  have hsb : spec_bonus cexMatrices = 0 := by decide
  have hp : spec_penalty cexScores cexMatrices = 0 := by decide
  have hbase : base_score cexScores = 509 / 10 := by norm_num [base_score, cexScores]
  have hfloor : ⌊(509 / 10 : ℚ)⌋ = (50 : ℤ) := by
    rw [Int.floor_eq_iff]; norm_num
  have hround : round ((509 : ℚ) / 10) = (51 : ℤ) := by
    rw [round_eq, Int.floor_eq_iff]; norm_num
  have h1 : compute_virality_score cexScores cexMatrices = 50 := by
    unfold compute_virality_score pyInt
    rw [hb, hbase]
    norm_num [hfloor]
  have h2 : claimed_total_C1 cexScores cexMatrices = 51 := by
    unfold claimed_total_C1
    rw [hsb, hp, hbase, hround]
    norm_num
  exact ⟨h1, h2, by rw [h1, h2]; decide⟩

/-- C1 (amended). For every report with the five sub-scores and the
matrices given, `compute_virality_score` equals
`clamp(int(Σ weightᵢ · subscoreᵢ + bonus − penalty), 0, 100)` where
`int` is Python truncation toward zero applied to the fully adjusted
sum (instead of the claimed `round` of the weighted sum); the weights,
the three bonuses, the three penalties, their additivity and
independence, and the final clamp are as the claim states. -/
theorem compute_virality_score_eq_clamp_trunc (s : Scores) (m : Matrices) :
    compute_virality_score s m =
      max 0 (min 100 (pyInt (base_score s + (spec_bonus m : ℚ) - (spec_penalty s m : ℚ)))) := by
  have hz : bonus_total s m = spec_bonus m - spec_penalty s m := by
    unfold bonus_total spec_bonus spec_penalty
    split_ifs <;> ring
  have harg : base_score s + ((spec_bonus m : ℚ) - (spec_penalty s m : ℚ)) =
      base_score s + (spec_bonus m : ℚ) - (spec_penalty s m : ℚ) := by ring
  unfold compute_virality_score
  rw [hz]
  push_cast
  rw [harg]

/-- C2. `compute_virality_score` is a pure, deterministic function of
its input — equal inputs give equal outputs — and on sub-scores
(80, 70, 50, 60, 40) with matrices (emotion joy, tone funny,
facial_sync good) it returns exactly 77. -/
theorem compute_virality_score_deterministic_and_77 :
    (∀ s₁ s₂ m₁ m₂, s₁ = s₂ → m₁ = m₂ →
        compute_virality_score s₁ m₁ = compute_virality_score s₂ m₂) ∧
      compute_virality_score exScores exMatrices = 77 := by
  constructor
  · intro s₁ s₂ m₁ m₂ hs hm
    rw [hs, hm]
  · have hb : bonus_total exScores exMatrices = 16 := by decide
    have hbase : base_score exScores = 611 / 10 := by norm_num [base_score, exScores]
    have hfloor : ⌊(771 / 10 : ℚ)⌋ = (77 : ℤ) := by
      rw [Int.floor_eq_iff]; norm_num
    unfold compute_virality_score pyInt
    rw [hb, hbase]
    norm_num [show (611 : ℚ) / 10 + 16 = 771 / 10 by norm_num, hfloor]

/-- Witness for C2 at the concrete example input. -/
theorem compute_virality_score_deterministic_and_77_witness :
    compute_virality_score exScores exMatrices =
        compute_virality_score exScores exMatrices ∧
      compute_virality_score exScores exMatrices = 77 :=
  ⟨compute_virality_score_deterministic_and_77.1 exScores exScores exMatrices exMatrices
      rfl rfl,
    compute_virality_score_deterministic_and_77.2⟩

/-- C3. For sub-scores each in [0, 100] and any matrices whatsoever
(hence any combination of bonuses and penalties), the total returned by
`compute_virality_score` lies in [0, 100]. -/
theorem compute_virality_score_mem_range (s : Scores) (m : Matrices)
    (_h1 : 0 ≤ s.hook) (_h2 : s.hook ≤ 100)
    (_h3 : 0 ≤ s.visuals) (_h4 : s.visuals ≤ 100)
    (_h5 : 0 ≤ s.audio) (_h6 : s.audio ≤ 100)
    (_h7 : 0 ≤ s.engagement) (_h8 : s.engagement ≤ 100)
    (_h9 : 0 ≤ s.visual_diversity) (_h10 : s.visual_diversity ≤ 100) :
    0 ≤ compute_virality_score s m ∧ compute_virality_score s m ≤ 100 := by
  unfold compute_virality_score
  exact ⟨le_max_left 0 _, max_le (by norm_num) (min_le_left _ _)⟩

/-- Witness for C3 at the concrete example input. -/
theorem compute_virality_score_mem_range_witness :
    0 ≤ compute_virality_score exScores exMatrices ∧
      compute_virality_score exScores exMatrices ≤ 100 :=
  compute_virality_score_mem_range exScores exMatrices (by decide) (by decide) (by decide)
    (by decide) (by decide) (by decide) (by decide) (by decide) (by decide) (by decide)

/-- C4 (refutation). The scene record written by
`SceneDetector.detect_and_save` — here for the concrete scene
(start 0 s, end 2.5 s) — carries the field names `"start"` and `"end"`,
not `"start_time"`/`"end_time"`: looking up the names that
`FrameExtractor.extract` reads fails (a `KeyError` in Python). -/
theorem detect_and_save_field_names_cex :
    (formatScene 0 (5 / 2)).map Prod.fst = ["start", "end"] ∧
      sceneLookup (formatScene 0 (5 / 2)) "start_time" = none ∧
      sceneLookup (formatScene 0 (5 / 2)) "end_time" = none ∧
      sceneLookup (formatScene 0 (5 / 2)) "start" = some 0 := by
  refine ⟨rfl, rfl, rfl, rfl⟩

/-- Entries produced by `extractLoop` index scenes of the suffix being
traversed, offset by the running index, and only scenes of duration at
least `minLen`. -/
theorem extractLoop_mem (minLen : ℚ) (scenes : List Scene) (i : ℕ) (r : FrameResult)
    (hr : r ∈ extractLoop minLen i scenes) :
    ∃ j sc, r.scene_index = i + j ∧ scenes.get? j = some sc ∧
      minLen ≤ sc.end_time - sc.start_time := by
  induction scenes generalizing i with
  | nil => simp [extractLoop] at hr
  | cons sc rest ih =>
      rw [extractLoop] at hr
      by_cases hdur : sc.end_time - sc.start_time < minLen
      · rw [if_pos hdur] at hr
        obtain ⟨j, sc', hidx, hget, hlen⟩ := ih (i + 1) hr
        exact ⟨j + 1, sc', by omega, by simpa using hget, hlen⟩
      · rw [if_neg hdur] at hr
        rcases List.mem_cons.mp hr with hhead | htail
        · exact ⟨0, sc, by simp [hhead], rfl, le_of_not_lt hdur⟩
        · obtain ⟨j, sc', hidx, hget, hlen⟩ := ih (i + 1) htail
          exact ⟨j + 1, sc', by omega, by simpa using hget, hlen⟩

/-- C5. Frame extraction never produces a result entry for a scene
shorter than the configured minimum scene length: every entry returned
by `FrameExtractor.extract` points (via its `scene_index`) to a scene
of the input list whose duration is at least `min_scene_len`. -/
theorem extract_skips_short_scenes (minLen : ℚ) (scenes : List Scene) (r : FrameResult)
    (hr : r ∈ extract minLen scenes) :
    ∃ sc, scenes.get? r.scene_index = some sc ∧
      minLen ≤ sc.end_time - sc.start_time := by
  obtain ⟨j, sc, hidx, hget, hlen⟩ := extractLoop_mem minLen scenes 0 r hr
  exact ⟨sc, by simpa [hidx] using hget, hlen⟩

/-- Witness for C5: a single scene of duration 1 s ≥ 0.2 s produces the
single entry with index 0 and midpoint 0.5 s. -/
theorem extract_skips_short_scenes_witness :
    (⟨0, 1 / 2⟩ : FrameResult) ∈ extract (1 / 5) [⟨0, 1⟩] ∧
      ∃ sc, [(⟨0, 1⟩ : Scene)].get? (0 : ℕ) = some sc ∧
        (1 / 5 : ℚ) ≤ sc.end_time - sc.start_time := by
  have hmem : (⟨0, 1 / 2⟩ : FrameResult) ∈ extract (1 / 5) [⟨0, 1⟩] := by
    unfold extract extractLoop
    norm_num
  exact ⟨hmem, extract_skips_short_scenes (1 / 5) [⟨0, 1⟩] ⟨0, 1 / 2⟩ hmem⟩

/-- If `n` is an initial segment of `h`, then `h = n ++ t` for some `t`. -/
theorem isPre_exists {n h : List Char} (hp : isPre n h = true) : ∃ t, h = n ++ t := by
  induction n generalizing h with
  | nil => exact ⟨h, rfl⟩
  | cons a as ih =>
      cases h with
      | nil => simp [isPre] at hp
      | cons b bs =>
          simp only [isPre, Bool.and_eq_true, beq_iff_eq] at hp
          obtain ⟨rfl, h2⟩ := hp
          obtain ⟨t, rfl⟩ := ih h2
          exact ⟨t, rfl⟩

/-- A list is an initial segment of itself extended by anything. -/
theorem isPre_append_self (n t : List Char) : isPre n (n ++ t) = true := by
  induction n with
  | nil => rfl
  | cons a as ih => simp [isPre, ih]

/-- An initial segment is in particular a substring occurrence. -/
theorem containsSub_of_isPre {n h : List Char} (hp : isPre n h = true) :
    containsSub n h = true := by
  cases h with
  | nil =>
      cases n with
      | nil => rfl
      | cons a as => simp [isPre] at hp
  | cons c t => simp [containsSub, hp]

/-- Substring occurrences survive prepending. -/
theorem containsSub_append_left {n : List Char} (p : List Char) {h : List Char}
    (hc : containsSub n h = true) : containsSub n (p ++ h) = true := by
  induction p with
  | nil => simpa using hc
  | cons c p' ih => simp [containsSub, ih]

/-- A substring occurrence of a needle fixed by a character map survives
mapping the haystack. -/
theorem containsSub_map (f : Char → Char) {n h : List Char} (hn : n.map f = n)
    (hc : containsSub n h = true) : containsSub n (h.map f) = true := by
  induction h with
  | nil => simpa [containsSub] using hc
  | cons c t ih =>
      rw [containsSub, Bool.or_eq_true] at hc
      rcases hc with hpre | htail
      · obtain ⟨r, hr⟩ := isPre_exists hpre
        have hmap : List.map f (c :: t) = n ++ List.map f r := by
          rw [hr, List.map_append, hn]
        rw [hmap]
        exact containsSub_of_isPre (isPre_append_self n _)
      · have := ih htail
        simp [containsSub, this]

/-- Once the stage is `done` or `error`, the sequencer never moves
again: `run_next_stage_if_needed` returns without running anything. -/
theorem runPipeline_absorbing (w : World) (n : ℕ) (s : SessionState)
    (h : s.stage = some Stage.done ∨ s.stage = some Stage.error) :
    runPipeline w n s = s := by
  cases n with
  | zero => rfl
  | succ m => rcases h with h | h <;> simp [runPipeline, h]

/-- C6. On a video identity whose final report artifact already exists,
both entry paths short-circuit: the URL path invokes only the download
collaborator and ends in `done` with progress 100, the upload path ends
in `done` with progress 100 without a single step, and on neither path
is any of the six stage collaborators (scene detection, frame
extraction, frame/audio/hook analysis, report generation) ever
invoked — for any number of sequencer reruns. -/
theorem report_exists_short_circuits (w : World) (n : ℕ) (h : w.reportExists = true) :
    runPipeline w (n + 1) urlEntryState =
        ⟨some Stage.done, 100, false, ["download_video"]⟩ ∧
      runPipeline w n (fileEntryState w) = ⟨some Stage.done, 100, false, []⟩ ∧
      pipelineCollaborators.inter (runPipeline w (n + 1) urlEntryState).invoked = [] ∧
      pipelineCollaborators.inter (runPipeline w n (fileEntryState w)).invoked = [] := by
  have hstep : runCurrentStage w ⟨some Stage.download, 0, false, []⟩ =
      ⟨some Stage.done, 100, false, ["download_video"]⟩ := by
    simp [runCurrentStage, h]
  have h1 : runPipeline w (n + 1) urlEntryState =
      ⟨some Stage.done, 100, false, ["download_video"]⟩ := by
    rw [runPipeline]
    simp only [urlEntryState]
    rw [if_neg (by decide), hstep]
    exact runPipeline_absorbing w n _ (Or.inl rfl)
  have h2 : runPipeline w n (fileEntryState w) = ⟨some Stage.done, 100, false, []⟩ := by
    have hfe : fileEntryState w = ⟨some Stage.done, 100, false, []⟩ := by
      simp [fileEntryState, h]
    rw [hfe]
    exact runPipeline_absorbing w n _ (Or.inl rfl)
  refine ⟨h1, h2, ?_, ?_⟩
  · rw [h1]; decide
  · rw [h2]; decide

/-- Witness for C6 with the report artifact present and one rerun. -/
theorem report_exists_short_circuits_witness :
    runPipeline ⟨true, true, true⟩ 1 urlEntryState =
        ⟨some Stage.done, 100, false, ["download_video"]⟩ ∧
      runPipeline ⟨true, true, true⟩ 0 (fileEntryState ⟨true, true, true⟩) =
        ⟨some Stage.done, 100, false, []⟩ ∧
      pipelineCollaborators.inter
          (runPipeline ⟨true, true, true⟩ 1 urlEntryState).invoked = [] ∧
      pipelineCollaborators.inter
          (runPipeline ⟨true, true, true⟩ 0 (fileEntryState ⟨true, true, true⟩)).invoked
        = [] :=
  report_exists_short_circuits ⟨true, true, true⟩ 0 rfl

/-- C7. If the Gemini call during audio analysis fails with a message
containing "401", then `_gemini_audio_analysis` re-raises it as the
credential `ValueError` "Invalid Gemini API key: ...", `analyze`
propagates it so `audio_analysis.json` is never written, the audio
branch of `_run_current_stage` classifies the message as the
Gemini-tagged credential failure (moving to the error state), and from
the error state no further sequencer step runs any stage. -/
theorem audio_analysis_401_credential_failure (e : String) (b : ℚ) (n : ℕ)
    (h : strContains "401" e = true) :
    geminiAudioAnalysis (Except.error e) b =
        Except.error ("Invalid Gemini API key: " ++ e) ∧
      audioAnalyzeArtifact (geminiAudioAnalysis (Except.error e) b) = none ∧
      uiAudioStageOnError ("Invalid Gemini API key: " ++ e) =
        some ("GEMINI API KEY FAILED: Invalid Gemini API Key provided. Error: "
          ++ ("Invalid Gemini API key: " ++ e)) ∧
      runPipeline ⟨false, true, true⟩ n
          ⟨some Stage.error, 55, false,
            ["download_video", "scene_detection", "frame_extraction", "frame_analysis"]⟩ =
        ⟨some Stage.error, 55, false,
          ["download_video", "scene_detection", "frame_extraction", "frame_analysis"]⟩ := by
  obtain ⟨ed⟩ := e
  have hed : containsSub ("401".data) ed = true := h
  have hlow : strContains "401" (strLower ⟨ed⟩) = true := by
    show containsSub ("401".data) (ed.map Char.toLower) = true
    exact containsSub_map Char.toLower (by decide) hed
  have hcred : isCredentialError ⟨ed⟩ = true := by
    simp [isCredentialError, credKeywords, List.any_cons, hlow]
  have hraise : geminiAudioAnalysis (Except.error ⟨ed⟩) b =
      Except.error ("Invalid Gemini API key: " ++ ⟨ed⟩) := by
    simp [geminiAudioAnalysis, geminiAudioExceptClause, hcred]
  have hmsg : strContains "401" ("Invalid Gemini API key: " ++ ⟨ed⟩) = true := by
    show containsSub ("401".data) (("Invalid Gemini API key: ").data ++ ed) = true
    exact containsSub_append_left _ hed
  refine ⟨hraise, by rw [hraise]; rfl, ?_, ?_⟩
  · simp [uiAudioStageOnError, hmsg]
  · exact runPipeline_absorbing _ n _ (Or.inr rfl)

/-- Witness for C7 at a concrete credential-shaped error message. -/
theorem audio_analysis_401_credential_failure_witness :
    strContains "401" "HTTP Error 401: Unauthorized" = true ∧
      (geminiAudioAnalysis (Except.error "HTTP Error 401: Unauthorized") 0 =
          Except.error ("Invalid Gemini API key: " ++ "HTTP Error 401: Unauthorized") ∧
        audioAnalyzeArtifact
            (geminiAudioAnalysis (Except.error "HTTP Error 401: Unauthorized") 0) = none ∧
        uiAudioStageOnError ("Invalid Gemini API key: " ++ "HTTP Error 401: Unauthorized") =
          some ("GEMINI API KEY FAILED: Invalid Gemini API Key provided. Error: "
            ++ ("Invalid Gemini API key: " ++ "HTTP Error 401: Unauthorized")) ∧
        runPipeline ⟨false, true, true⟩ 3
            ⟨some Stage.error, 55, false,
              ["download_video", "scene_detection", "frame_extraction", "frame_analysis"]⟩ =
          ⟨some Stage.error, 55, false,
            ["download_video", "scene_detection", "frame_extraction", "frame_analysis"]⟩) :=
  ⟨by decide,
    audio_analysis_401_credential_failure "HTTP Error 401: Unauthorized" 0 3 (by decide)⟩

/-- The per-frame loop of `FrameAnalyzer.analyze` processes every frame
independently: one output entry per input frame, successes become
parsed entries and failures become per-frame error entries — so no
exception escapes the loop and later frames are still processed. -/
theorem frameAnalyzeLoop_eq_map (l : List (String × Except String FrameRecord)) :
    frameAnalyzeLoop l =
      l.map (fun p => (p.1,
        match p.2 with
        | Except.ok r => FrameEntry.parsed r
        | Except.error e => FrameEntry.failed e)) := by
  induction l with
  | nil => rfl
  | cons p t ih =>
      obtain ⟨nm, out⟩ := p
      simp [frameAnalyzeLoop, ih]

/-- The JSON parse-failure message that refutes the universal part of
C8 on the audio side: CPython's `json.loads` raises `JSONDecodeError`
with this message for a raw control character inside a string literal,
and the message contains the credential keyword "invalid". -/
def jsonCexMsg : String := "Invalid control character at: line 1 column 10 (char 9)"

/-- C8 (counterexample). A possible parse-failure message — the
`json.JSONDecodeError` text for a control character in the Gemini
response — matches the credential-keyword sniffing of
`_gemini_audio_analysis` (it contains "invalid"), so the stage
re-raises a `ValueError` instead of returning the documented default
record: the claim does not hold for every possible parse-failure error
message. -/
theorem audio_parse_failure_default_cex :
    geminiAudioAnalysis (Except.error jsonCexMsg) 0 =
        Except.error ("Invalid Gemini API key: " ++ jsonCexMsg) ∧
      geminiAudioAnalysis (Except.error jsonCexMsg) 0 ≠
        Except.ok (defaultAudioRecord 0) := by
  have hcred : isCredentialError jsonCexMsg = true := by decide
  have h1 : geminiAudioAnalysis (Except.error jsonCexMsg) 0 =
      Except.error ("Invalid Gemini API key: " ++ jsonCexMsg) := by
    simp [geminiAudioAnalysis, geminiAudioExceptClause, hcred]
  refine ⟨h1, ?_⟩
  rw [h1]
  intro heq
  exact Except.noConfusion heq

/-- C8 (amended). A malformed AI response never raises past the frame
analysis stage — every failed frame yields a per-frame error entry and
the loop continues, for every possible error message — and audio
analysis returns the documented default record (tone neutral, pace
medium, delivery_score 50) for every parse-failure message that does
not contain a credential keyword (api_key, invalid, 401, 403,
authentication, unauthorized, case-insensitively); a parse-failure
message containing such a keyword is instead re-raised as a credential
failure. -/
theorem parse_failure_stage_handling (frames : List (String × Except String FrameRecord))
    (mq : String) (b : ℚ) (hm : isCredentialError mq = false) :
    frameAnalyzeLoop frames =
        frames.map (fun p => (p.1,
          match p.2 with
          | Except.ok r => FrameEntry.parsed r
          | Except.error e => FrameEntry.failed e)) ∧
      geminiAudioAnalysis (Except.error mq) b = Except.ok (defaultAudioRecord b) ∧
      (defaultAudioRecord b).tone = "neutral" ∧
      (defaultAudioRecord b).pace = "medium" ∧
      (defaultAudioRecord b).delivery_score = 50 := by
  refine ⟨frameAnalyzeLoop_eq_map frames, ?_, rfl, rfl, rfl⟩
  simp [geminiAudioAnalysis, geminiAudioExceptClause, hm]

/-- Witness for C8 at a concrete malformed-response outcome list and a
concrete keyword-free parse-failure message. -/
theorem parse_failure_stage_handling_witness :
    isCredentialError "Expecting value: line 1 column 1 (char 0)" = false ∧
      (frameAnalyzeLoop [("clip_scene_00.jpg",
            Except.error "Expecting value: line 1 column 1 (char 0)")] =
          [("clip_scene_00.jpg", Except.error "Expecting value: line 1 column 1 (char 0)")].map
            (fun p => (p.1,
              match p.2 with
              | Except.ok r => FrameEntry.parsed r
              | Except.error e => FrameEntry.failed e)) ∧
        geminiAudioAnalysis
            (Except.error "Expecting value: line 1 column 1 (char 0)") 0 =
          Except.ok (defaultAudioRecord 0) ∧
        (defaultAudioRecord 0).tone = "neutral" ∧
        (defaultAudioRecord 0).pace = "medium" ∧
        (defaultAudioRecord 0).delivery_score = 50) :=
  ⟨by decide,
    parse_failure_stage_handling
      [("clip_scene_00.jpg", Except.error "Expecting value: line 1 column 1 (char 0)")]
      "Expecting value: line 1 column 1 (char 0)" 0 (by decide)⟩

/-- The total score of the all-zero fallback result with all matrices
"unknown": base 0, penalties −6 (hook ≤ 30) and −5 (audio < 40), then
clamped up to 0. -/
theorem zero_unknown_total :
    compute_virality_score ⟨0, 0, 0, 0, 0⟩ ⟨"unknown", "unknown", "unknown", "unknown"⟩ = 0 := by
  have hb : bonus_total ⟨0, 0, 0, 0, 0⟩ ⟨"unknown", "unknown", "unknown", "unknown"⟩ = -11 := by
    decide
  have hbase : base_score ⟨0, 0, 0, 0, 0⟩ = 0 := by norm_num [base_score]
  have hc : ⌈(-11 : ℚ)⌉ = (-11 : ℤ) := by
    rw [Int.ceil_eq_iff]; norm_num
  unfold compute_virality_score pyInt
  rw [hb, hbase]
  norm_num [hc]

/-- C9 (counterexample). With all three upstream artifacts
(frame/audio/hook) missing and the LLM call failing, report generation
does not fail: `VideoReport.load_json` substitutes `{}` for each
missing artifact and `generate` still produces a report — the
fallback document with total score 0 and all matrices "unknown" —
contradicting the claim that report generation halts when an upstream
artifact is absent. -/
theorem report_generation_missing_artifacts_cex :
    videoReportGenerate none none none (Except.error "OpenAI call failed") =
      ⟨0, ⟨0, 0, 0, 0, 0⟩, ⟨"unknown", "unknown", "unknown", "unknown"⟩⟩ := by
  have hgen : videoReportGenerate none none none (Except.error "OpenAI call failed") =
      ⟨compute_virality_score ⟨0, 0, 0, 0, 0⟩ ⟨"unknown", "unknown", "unknown", "unknown"⟩,
        ⟨0, 0, 0, 0, 0⟩, ⟨"unknown", "unknown", "unknown", "unknown"⟩⟩ := rfl
  rw [hgen, zero_unknown_total]

/-- C9 (amended). A missing upstream artifact is fatal to frame
extraction (missing scene artifact) and to hook analysis (missing
audio artifact), which raise before doing any work; report generation,
however, does not fail on a missing frame/audio/hook artifact:
`VideoReport.load_json` swallows the read failure, substitutes the
empty document, and a fallback report (total 0, matrices "unknown")
is still generated. -/
theorem missing_artifact_stage_outcomes :
    (∀ minLen : ℚ, frameExtractStage minLen none =
        Except.error "FileNotFoundError: scene artifact missing") ∧
      (∀ g : Except String HookRecord, hookAnalyzeStage none g =
        Except.error "FileNotFoundError: audio artifact missing") ∧
      (∀ e : String, videoReportGenerate none none none (Except.error e) =
        ⟨0, ⟨0, 0, 0, 0, 0⟩, ⟨"unknown", "unknown", "unknown", "unknown"⟩⟩) := by
  refine ⟨fun _ => rfl, fun _ => rfl, fun e => ?_⟩
  have hgen : videoReportGenerate none none none (Except.error e) =
      ⟨compute_virality_score ⟨0, 0, 0, 0, 0⟩ ⟨"unknown", "unknown", "unknown", "unknown"⟩,
        ⟨0, 0, 0, 0, 0⟩, ⟨"unknown", "unknown", "unknown", "unknown"⟩⟩ := rfl
  rw [hgen, zero_unknown_total]

/-- C10. Every artifact path is a pure function of the subdirectory,
suffix, extension and the video path's filename stem alone: two video
paths with equal stems give identical `make_path` results whatever
their directories or extensions — exhibited concretely on two distinct
video files sharing the stem "clip", which map to the same scene
artifact path (and hence share cached/resumed artifacts). File content
never enters `make_path` at all: its arguments are only the four
strings. -/
theorem make_path_depends_only_on_stem :
    (∀ subdir vp1 vp2 sfx ext, pyStem vp1 = pyStem vp2 →
        make_path subdir vp1 sfx ext = make_path subdir vp2 sfx ext) ∧
      ("videos/archive/clip.mp4" : String) ≠ "uploads/clip.mov" ∧
      make_path "processed/scene-detection" "videos/archive/clip.mp4" "scene" "json" =
        make_path "processed/scene-detection" "uploads/clip.mov" "scene" "json" := by
  refine ⟨?_, by decide, by decide⟩
  intro subdir vp1 vp2 sfx ext h
  unfold make_path make_name
  rw [h]

/-- Witness for C10 at two concrete video paths with equal stems. -/
theorem make_path_depends_only_on_stem_witness :
    pyStem "data/raw/clip.mp4" = pyStem "elsewhere/clip.mkv" ∧
      make_path "reports" "data/raw/clip.mp4" "final_report" "json" =
        make_path "reports" "elsewhere/clip.mkv" "final_report" "json" :=
  ⟨by decide,
    make_path_depends_only_on_stem.1 "reports" "data/raw/clip.mp4" "elsewhere/clip.mkv"
      "final_report" "json" (by decide)⟩
